import Mathlib

/-!
Verification of the two benchmark scripts of this repository
(`batch_inserts.py`, a PostgreSQL insert-strategy demo, and `indices.py`,
a SQLite index demo) against their natural-language specification.

The scripts are shallowly embedded: the synthetic data generators become
Lean functions parameterised by a stream of pseudo-random draws, the
database interactions become explicit operation traces interpreted over an
explicit database state, and the straight-line fallible control flow
becomes an `Except`-valued runner.
-/

namespace RdbLab

/-! ## Pseudo-random source

Modelled from the spec: both generators draw from Python's unseeded
pseudo-random module.  An execution's random environment is a stream
`Nat → Nat` of independent draws; each primitive consumes one draw. -/

/-- Modelled from the spec: `random.randint(lo, hi)` returns an integer in
the inclusive range `[lo, hi]`; the draw `s` selects which one. -/
def randint (lo hi s : Nat) : Nat := lo + s % (hi - lo + 1)

/-- The character pool `string.ascii_uppercase + string.digits` used by
`random.choices` in `batch_inserts.py`. -/
def charPool : List Char := "ABCDEFGHIJKLMNOPQRSTUVWXYZ0123456789".toList

/-- `size_exp = 64`: the length of the random text of each row
(`batch_inserts.py`, line 51). -/
def size_exp : Nat := 64

/-- Modelled from the spec: `random.choices(pool, k)` joined to a string —
`k` independent uniform picks from the pool, one draw per character. -/
def randomChoices (k : Nat) (draw : Nat → Nat) : List Char :=
  (List.range k).map fun j => charPool.getD (draw j % charPool.length) 'A'

/-- Python's `range(a, b)`: the integers from `a` (inclusive) to `b`
(exclusive). -/
def pyRange (a b : Nat) : List Nat := List.range' a (b - a)

/-! ## The Postgres demo's rows (`batch_inserts.py`) -/

/-- A row of the `records` table: `num BIGINT, txt VARCHAR` (the serial
`id` column is filled in by the engine and not generated by the script). -/
structure Rec where
  num : Nat
  txt : List Char
deriving DecidableEq

/-- One generated record: `random.randint(1, 10**17)` for `num` and a
`size_exp`-character random string for `txt`.  Row index `i` consumes the
block of `size_exp + 1` draws starting at `i * (size_exp + 1)` of the
stream `s`. -/
def genRecord (s : Nat → Nat) (i : Nat) : Rec :=
  { num := randint 1 (10 ^ 17) (s (i * (size_exp + 1)))
  , txt := randomChoices size_exp fun j => s (i * (size_exp + 1) + 1 + j) }

/-- `batch_size = 1000` (`batch_inserts.py`, line 107). -/
def batch_size : Nat := 1000

/-- `nr_batches = 1000` (`batch_inserts.py`, line 108). -/
def nr_batches : Nat := 1000

/-- `nr_records = 1000000` (`batch_inserts.py`, line 143). -/
def nr_records : Nat := 1000000

/-- Step 3's per-batch row list (`batch_inserts.py`, line 113):
`[(randint..., join(choices...)) for i in range(1, batch_size)]`.
Note the comprehension runs over `range(1, batch_size)`. -/
def new_rows (s : Nat → Nat) : List Rec :=
  (pyRange 1 batch_size).map (genRecord s)

/-- Step 4's row list (`batch_inserts.py`, line 145):
`[(randint..., join(choices...)) for i in range(1, nr_records)]`.
Note the comprehension runs over `range(1, nr_records)`. -/
def records (s : Nat → Nat) : List Rec :=
  (pyRange 1 nr_records).map (genRecord s)

/-- The rows generated by step 1's loop `for i in range(10000)`
(`batch_inserts.py`, lines 57-63). -/
def step1Rows (s : Nat → Nat) : List Rec :=
  (pyRange 0 10000).map (genRecord s)

/-- The rows generated by step 2's loop `for i in range(10000)`
(`batch_inserts.py`, lines 81-86). -/
def step2Rows (s : Nat → Nat) : List Rec :=
  (pyRange 0 10000).map (genRecord s)

/-! ## The Postgres demo as an operation trace

Each database call of `batch_inserts.py` becomes one operation; the four
steps of the script become four traces of operations. -/

/-- A database call issued by `batch_inserts.py`: an `INSERT` statement
execution (`cur.execute` / one row of `cursor.executemany`), a
`conn.commit()`, or one `copy.write_row` on the COPY channel. -/
inductive PgOp where
  | insertRow (r : Rec)
  | commit
  | copyRow (r : Rec)
deriving DecidableEq

/-- The visible state of the `records` table: the rows already durably
committed, and the rows inserted in the currently open transaction. -/
structure PgState where
  committed : List Rec
  pending : List Rec
deriving DecidableEq

/-- Modelled from the spec (glossary): a commit durably finalizes all
statements issued since the last commit; inserts and COPY rows accumulate
in the open transaction until then. -/
def applyOp (st : PgState) : PgOp → PgState
  | .insertRow r => { st with pending := st.pending ++ [r] }
  | .copyRow r => { st with pending := st.pending ++ [r] }
  | .commit => { committed := st.committed ++ st.pending, pending := [] }

/-- Run a trace of database calls from a starting state. -/
def runOps (st : PgState) : List PgOp → PgState
  | [] => st
  | op :: rest => runOps (applyOp st op) rest

/-- Modelled from the spec (glossary): only committed statements are
durable, so `conn.close()` discards the rows of a still-open
transaction. -/
def closeConn (st : PgState) : PgState :=
  { committed := st.committed, pending := [] }

/-- Number of `conn.commit()` calls in a trace. -/
def commitCount (ops : List PgOp) : Nat :=
  ops.countP fun op => match op with | .commit => true | _ => false

/-- Step 1 (`batch_inserts.py`, lines 54-63): one `INSERT` plus one
`conn.commit()` per row, 10000 times. -/
def step1Ops (s : Nat → Nat) : List PgOp :=
  (step1Rows s).flatMap fun r => [.insertRow r, .commit]

/-- Step 2 (`batch_inserts.py`, lines 78-87): 10000 `INSERT`s followed by
a single `conn.commit()`. -/
def step2Ops (s : Nat → Nat) : List PgOp :=
  (step2Rows s).map .insertRow ++ [.commit]

/-- Step 3 (`batch_inserts.py`, lines 107-118): `nr_batches` iterations,
each executing `executemany` over `new_rows` and then committing.  Batch
`b` draws from its own stream `s b`. -/
def step3Ops (s : Nat → Nat → Nat) : List PgOp :=
  (pyRange 0 nr_batches).flatMap fun b =>
    (new_rows (s b)).map .insertRow ++ [.commit]

/-- Step 4 (`batch_inserts.py`, lines 147-152): every generated record is
streamed through `copy.write_row`; the block contains no `conn.commit()`
call. -/
def step4Ops (s : Nat → Nat) : List PgOp :=
  (records s).map .copyRow

/-- The whole `batch_inserts.py` run as one trace: steps 1 to 4 in
order. -/
def batchScriptOps (s1 s2 : Nat → Nat) (s3 : Nat → Nat → Nat)
    (s4 : Nat → Nat) : List PgOp :=
  step1Ops s1 ++ step2Ops s2 ++ step3Ops s3 ++ step4Ops s4

/-- One full run of `batch_inserts.py` against a table already holding
`prior` committed rows: `CREATE TABLE IF NOT EXISTS records ...` (line 48)
keeps the existing table and its rows, then the four steps run and the
connection is closed (line 163).  The committed rows of the table
afterwards are `(closeConn (runOps { committed := prior, pending := [] }
(batchScriptOps s1 s2 s3 s4))).committed`; the theorems below state the
run's effect in this form. -/
def batchScriptRunState (prior : List Rec) (s1 s2 : Nat → Nat)
    (s3 : Nat → Nat → Nat) (s4 : Nat → Nat) : PgState :=
  runOps { committed := prior, pending := [] } (batchScriptOps s1 s2 s3 s4)

/-! ## The SQLite demo (`indices.py`) -/

/-- A row of the `students` table: `name TEXT, age INTEGER`. -/
structure Student where
  name : List Char
  age : Nat
deriving DecidableEq

/-- Row `i` of the population loop (`indices.py`, lines 42-44):
`INSERT INTO students VALUES ('Student{i}', {i % 60})`. -/
def studentRow (i : Nat) : Student :=
  { name := "Student".toList ++ (toString i).toList, age := i % 60 }

/-- The population size of the SQLite demo: `range(20000000)`
(`indices.py`, line 42). -/
def nStudents : Nat := 20000000

/-- The rows generated for the `students` table of a dataset of `n`
rows. -/
def populateStudents (n : Nat) : List Student :=
  (List.range n).map studentRow

/-- The state of the SQLite database: the rows of `students` and the
names of the schema's indices. -/
structure SqliteDb where
  students : List Student
  indexNames : List (List Char)
deriving DecidableEq

/-- A freshly created and populated database of `n` students, before any
index exists (`indices.py`, lines 33-47). -/
def initDb (n : Nat) : SqliteDb :=
  { students := populateStudents n, indexNames := [] }

/-- The predicate `name LIKE 'Student%'` of the script's query. -/
def likeStudent (st : Student) : Bool :=
  List.isPrefixOf "Student".toList st.name

/-- The script's query (`indices.py`, lines 59 and 92):
`SELECT * FROM students WHERE age = 20 AND name LIKE 'Student%'`. -/
def selectAge20 (db : SqliteDb) : List Student :=
  db.students.filter fun st => st.age == 20 && likeStudent st

/-- Modelled from the spec: `CREATE INDEX ... ON students (age)`
(`indices.py`, line 78) mutates only the schema — it registers the index
name and leaves the committed rows untouched. -/
def create_index (db : SqliteDb) (idxName : List Char) : SqliteDb :=
  { db with indexNames := db.indexNames ++ [idxName] }

/-- The rows generated by one execution of the `indices.py` population
loop under random environment `env`.  The loop consults no pseudo-random
source (`indices.py`, lines 42-44: name and age are functions of the loop
index alone), so the environment is never read. -/
def indicesGeneratedRows (_env : Nat → Nat) : List Student :=
  populateStudents nStudents

/-- One full run of `indices.py` against whatever database file existed
before (`prior`): the file is deleted if present (`indices.py`, lines
21-22), so the run starts from an empty database regardless of `prior`,
creates and populates `students`, and creates `age_index` (line 78). -/
def runIndicesScript (_prior : Option SqliteDb) : SqliteDb :=
  create_index (initDb nStudents) ("age_index".toList)

/-! ## Fallible execution

Both scripts are straight-line sequences of database calls with no
`try`/`except` and no retry; an error raised by any call aborts the run
with that error.  `runScriptE` is that control flow over an arbitrary
fallible executor. -/

/-- Run a trace of operations under a fallible executor; the first error
aborts the run and is returned unchanged, and the remaining operations
are never executed. -/
def runScriptE {α : Type} (ex : α → Except Nat Unit) : List α → Except Nat Unit
  | [] => .ok ()
  | op :: rest =>
    match ex op with
    | .error e => .error e
    | .ok _ => runScriptE ex rest

/-- A database call issued by `indices.py`: deleting the database file,
creating the table, one population `INSERT`, `connection.commit()`, the
`SELECT` query, or `CREATE INDEX`. -/
inductive SqOp where
  | removeFile
  | createTable
  | insertStudent (st : Student)
  | commit
  | selectQuery
  | createIdx
deriving DecidableEq

/-- The whole `indices.py` run as one trace: delete the file, create the
table, insert the 20 million rows, commit, query, create the index, and
query again (`indices.py`, lines 21-97). -/
def indicesScriptOps : List SqOp :=
  [.removeFile, .createTable]
    ++ (populateStudents nStudents).map .insertStudent
    ++ [.commit, .selectQuery, .createIdx, .selectQuery]

/-- The value of the loop variable `batch` after Python's
`for batch in range(nr_batches)` completes: the last value it took. -/
def finalBatchValue : Nat := nr_batches - 1

/-- The count printed by `batch_inserts.py`, line 120:
`format(batch * batch_size, ',')` evaluated after the loop. -/
def printedInsertCount : Nat := finalBatchValue * batch_size

/-! ## Helper lemmas -/

theorem pyRange_length (a b : Nat) : (pyRange a b).length = b - a := by
  simp [pyRange]

theorem new_rows_length (s : Nat → Nat) : (new_rows s).length = 999 := by
  simp [new_rows, pyRange, batch_size]

theorem records_length (s : Nat → Nat) : (records s).length = 999999 := by
  simp [records, pyRange, nr_records]

theorem step1Rows_length (s : Nat → Nat) : (step1Rows s).length = 10000 := by
  simp [step1Rows, pyRange]

theorem step2Rows_length (s : Nat → Nat) : (step2Rows s).length = 10000 := by
  simp [step2Rows, pyRange]

theorem runOps_append (st : PgState) (a b : List PgOp) :
    runOps st (a ++ b) = runOps (runOps st a) b := by
  induction a generalizing st with
  | nil => rfl
  | cons op rest ih => simp [runOps, ih]

theorem runOps_insert_map (c p rs : List Rec) :
    runOps { committed := c, pending := p } (rs.map .insertRow)
      = { committed := c, pending := p ++ rs } := by
  induction rs generalizing p with
  | nil => simp [runOps]
  | cons r rest ih => simp [runOps, applyOp, ih]

theorem runOps_copy_map (c p rs : List Rec) :
    runOps { committed := c, pending := p } (rs.map .copyRow)
      = { committed := c, pending := p ++ rs } := by
  induction rs generalizing p with
  | nil => simp [runOps]
  | cons r rest ih => simp [runOps, applyOp, ih]

theorem runOps_insert_commit (c p rs : List Rec) :
    runOps { committed := c, pending := p } (rs.map .insertRow ++ [.commit])
      = { committed := c ++ p ++ rs, pending := [] } := by
  rw [runOps_append, runOps_insert_map]
  simp [runOps, applyOp]

theorem runOps_perRow (c rs : List Rec) :
    runOps { committed := c, pending := [] }
        (rs.flatMap fun r => [.insertRow r, .commit])
      = { committed := c ++ rs, pending := [] } := by
  induction rs generalizing c with
  | nil => simp [runOps]
  | cons r rest ih =>
    have h2 : runOps { committed := c, pending := [] }
        [PgOp.insertRow r, PgOp.commit]
        = { committed := c ++ [r], pending := [] } := by
      simp [runOps, applyOp]
    rw [List.flatMap_cons, runOps_append, h2, ih]
    simp

theorem runOps_batchLoop (f : Nat → List Rec) (bs : List Nat) (c : List Rec) :
    runOps { committed := c, pending := [] }
        (bs.flatMap fun b => (f b).map .insertRow ++ [.commit])
      = { committed := c ++ bs.flatMap f, pending := [] } := by
  induction bs generalizing c with
  | nil => simp [runOps]
  | cons b rest ih =>
    rw [List.flatMap_cons, runOps_append, runOps_insert_commit, ih]
    simp

theorem step3_committed (s : Nat → Nat → Nat) :
    runOps { committed := [], pending := [] } (step3Ops s)
      = { committed := (pyRange 0 nr_batches).flatMap fun b => new_rows (s b),
          pending := [] } := by
  simpa [step3Ops] using
    runOps_batchLoop (fun b => new_rows (s b)) (pyRange 0 nr_batches) []

theorem step3_committed_length (s : Nat → Nat → Nat) :
    (runOps { committed := [], pending := [] } (step3Ops s)).committed.length
      = 999000 := by
  rw [step3_committed]
  simp only [List.length_flatMap, Function.comp_def]
  have h : List.map (fun b => (new_rows (s b)).length) (pyRange 0 nr_batches)
      = List.map (fun _ => 999) (pyRange 0 nr_batches) :=
    List.map_congr_left fun b _ => new_rows_length (s b)
  rw [h, List.map_const', List.sum_replicate, pyRange_length]
  norm_num [nr_batches, smul_eq_mul]

theorem batchedRows_length (s : Nat → Nat → Nat) :
    ((pyRange 0 nr_batches).flatMap fun b => new_rows (s b)).length = 999000 := by
  simp only [List.length_flatMap, Function.comp_def]
  have h : List.map (fun b => (new_rows (s b)).length) (pyRange 0 nr_batches)
      = List.map (fun _ => 999) (pyRange 0 nr_batches) :=
    List.map_congr_left fun b _ => new_rows_length (s b)
  rw [h, List.map_const', List.sum_replicate, pyRange_length]
  norm_num [nr_batches, smul_eq_mul]

theorem runBatch_state (prior : List Rec) (s1 s2 : Nat → Nat)
    (s3 : Nat → Nat → Nat) (s4 : Nat → Nat) :
    runOps { committed := prior, pending := [] } (batchScriptOps s1 s2 s3 s4)
      = { committed := prior ++ step1Rows s1 ++ step2Rows s2
            ++ ((pyRange 0 nr_batches).flatMap fun b => new_rows (s3 b)),
          pending := records s4 } := by
  have h1 : runOps { committed := prior, pending := [] } (step1Ops s1)
      = { committed := prior ++ step1Rows s1, pending := [] } := by
    simpa [step1Ops] using runOps_perRow prior (step1Rows s1)
  have h2 : runOps { committed := prior ++ step1Rows s1, pending := [] }
        (step2Ops s2)
      = { committed := prior ++ step1Rows s1 ++ step2Rows s2, pending := [] } := by
    simpa [step2Ops] using
      runOps_insert_commit (prior ++ step1Rows s1) [] (step2Rows s2)
  have h3 : runOps
        { committed := prior ++ step1Rows s1 ++ step2Rows s2, pending := [] }
        (step3Ops s3)
      = { committed := prior ++ step1Rows s1 ++ step2Rows s2
            ++ ((pyRange 0 nr_batches).flatMap fun b => new_rows (s3 b)),
          pending := [] } := by
    simpa [step3Ops] using
      runOps_batchLoop (fun b => new_rows (s3 b)) (pyRange 0 nr_batches)
        (prior ++ step1Rows s1 ++ step2Rows s2)
  have h4 : runOps
        { committed := prior ++ step1Rows s1 ++ step2Rows s2
            ++ ((pyRange 0 nr_batches).flatMap fun b => new_rows (s3 b)),
          pending := [] }
        (step4Ops s4)
      = { committed := prior ++ step1Rows s1 ++ step2Rows s2
            ++ ((pyRange 0 nr_batches).flatMap fun b => new_rows (s3 b)),
          pending := records s4 } := by
    simpa [step4Ops] using
      runOps_copy_map
        (prior ++ step1Rows s1 ++ step2Rows s2
          ++ ((pyRange 0 nr_batches).flatMap fun b => new_rows (s3 b)))
        [] (records s4)
  rw [batchScriptOps, runOps_append, runOps_append, runOps_append,
    h1, h2, h3, h4]

theorem batchScriptRun_committed (prior : List Rec) (s1 s2 : Nat → Nat)
    (s3 : Nat → Nat → Nat) (s4 : Nat → Nat) :
    (closeConn (batchScriptRunState prior s1 s2 s3 s4)).committed
      = prior ++ step1Rows s1 ++ step2Rows s2
        ++ ((pyRange 0 nr_batches).flatMap fun b => new_rows (s3 b)) := by
  rw [batchScriptRunState, runBatch_state]
  rfl

theorem batchScriptRun_length (prior : List Rec) (s1 s2 : Nat → Nat)
    (s3 : Nat → Nat → Nat) (s4 : Nat → Nat) :
    (closeConn (batchScriptRunState prior s1 s2 s3 s4)).committed.length
      = prior.length + 1019000 := by
  have h1 := step1Rows_length s1
  have h2 := step2Rows_length s2
  have h3 := batchedRows_length s3
  rw [batchScriptRun_committed]
  simp only [List.length_append]
  omega

theorem step4_commitCount (s : Nat → Nat) : commitCount (step4Ops s) = 0 := by
  simp [commitCount, step4Ops, List.countP_map, Function.comp_def]

theorem genRecord_num_bounds (s : Nat → Nat) (i : Nat) :
    1 ≤ (genRecord s i).num ∧ (genRecord s i).num ≤ 10 ^ 17 := by
  have hpow : (10 : Nat) ^ 17 - 1 + 1 = 10 ^ 17 := by norm_num
  have hx : (genRecord s i).num
      = 1 + s (i * (size_exp + 1)) % (10 ^ 17 - 1 + 1) := rfl
  rw [hx, hpow]
  have hmod : s (i * (size_exp + 1)) % 10 ^ 17 < 10 ^ 17 :=
    Nat.mod_lt _ (by positivity)
  omega

theorem isPrefixOf_self_append (l t : List Char) :
    List.isPrefixOf l (l ++ t) = true := by
  induction l with
  | nil => simp [List.isPrefixOf]
  | cons a l ih => simp [List.isPrefixOf, ih]

theorem likeStudent_studentRow (i : Nat) : likeStudent (studentRow i) = true := by
  rw [likeStudent, studentRow]
  exact isPrefixOf_self_append _ _

theorem records_num_at_zero (s : Nat → Nat) (h : 0 < (records s).length) :
    ((records s).get ⟨0, h⟩).num = 1 + s (size_exp + 1) % 10 ^ 17 := by
  have hg : (records s).get ⟨0, h⟩ = genRecord s 1 := by
    simp [records, pyRange]
  rw [hg]
  simp only [genRecord, randint, one_mul]
  norm_num

theorem runScriptE_error {α : Type} (ex : α → Except Nat Unit) (ops : List α)
    (e k : Nat) (hk : k < ops.length)
    (hok : ∀ j, (hj : j < ops.length) → j < k → ex (ops.get ⟨j, hj⟩) = .ok ())
    (herr : ex (ops.get ⟨k, hk⟩) = .error e) :
    runScriptE ex ops = .error e := by
  induction ops generalizing k with
  | nil => exact absurd hk (by simp)
  | cons op rest ih =>
    cases k with
    | zero =>
      have h0 : ex op = .error e := herr
      simp [runScriptE, h0]
    | succ m =>
      have h0 : ex op = .ok () := hok 0 (by simp) (Nat.succ_pos m)
      have hrest : runScriptE ex rest = .error e :=
        ih m (Nat.lt_of_succ_lt_succ hk)
          (fun j hj hjk =>
            hok (j + 1) (Nat.succ_lt_succ hj) (Nat.succ_lt_succ hjk))
          herr
      simp [runScriptE, h0, hrest]

theorem step1Ops_length (s : Nat → Nat) : (step1Ops s).length = 20000 := by
  simp only [step1Ops, List.length_flatMap, Function.comp_def,
    List.length_cons, List.length_nil]
  have h : List.map (fun r : Rec => [PgOp.insertRow r, PgOp.commit].length)
        (step1Rows s)
      = List.map (fun _ => 2) (step1Rows s) := by
    simp
  have h2 : (List.map (fun (_ : Rec) => 2) (step1Rows s)).sum = 20000 := by
    rw [List.map_const', List.sum_replicate, step1Rows_length, smul_eq_mul]
  calc (List.map (fun r : Rec => (0 + 1 + 1 : Nat)) (step1Rows s)).sum
      = (List.map (fun (_ : Rec) => 2) (step1Rows s)).sum := by norm_num
    _ = 20000 := h2

theorem batchScriptOps_length_pos (s1 s2 : Nat → Nat) (s3 : Nat → Nat → Nat)
    (s4 : Nat → Nat) : 0 < (batchScriptOps s1 s2 s3 s4).length := by
  have h := step1Ops_length s1
  simp only [batchScriptOps, List.length_append]
  omega

theorem indicesScriptOps_length : indicesScriptOps.length = nStudents + 6 := by
  rw [indicesScriptOps]
  rw [List.length_append, List.length_append, List.length_map,
    populateStudents, List.length_map, List.length_range]
  have h2 : ([SqOp.removeFile, SqOp.createTable]).length = 2 := rfl
  have h4 : ([SqOp.commit, SqOp.selectQuery, SqOp.createIdx,
    SqOp.selectQuery]).length = 4 := rfl
  rw [h2, h4]
  omega

theorem create_index_students (db : SqliteDb) (idx : List Char) :
    (create_index db idx).students = db.students := rfl

theorem initDb_students (n : Nat) : (initDb n).students = populateStudents n :=
  rfl

theorem populateStudents_length (n : Nat) : (populateStudents n).length = n := by
  rw [populateStudents, List.length_map, List.length_range]

theorem selectAge20_initDb (n : Nat) :
    selectAge20 (initDb n)
      = ((List.range n).filter fun i => i % 60 == 20).map studentRow := by
  have hpt : ∀ i ∈ List.range n,
      ((studentRow i).age == 20 && likeStudent (studentRow i))
        = ((i % 60 : Nat) == 20) := by
    intro i _
    rw [likeStudent_studentRow, Bool.and_true]
    rfl
  rw [selectAge20, initDb_students, populateStudents, List.filter_map]
  simp only [Function.comp_def]
  rw [List.filter_congr hpt]

theorem headD_eq_get (l : List Rec) (d : Rec) (h : 0 < l.length) :
    l.headD d = l.get ⟨0, h⟩ := by
  cases l with
  | nil => exact absurd h (by simp)
  | cons a t => rfl

/-! ## Claims -/

/-- Claim C1: the claim says each configured generation size is met exactly
and in particular that the batched strategy (`batch_size = 1000`,
`nr_batches = 1000`) and the copy strategy (`nr_records = 1000000`) each
generate and insert 1,000,000 rows.  The code disagrees: the comprehensions
run over `range(1, batch_size)` and `range(1, nr_records)`, so each batch
generates 999 rows (999,000 inserted in total by step 3) and the copy step
generates 999,999 rows — in both cases one short per comprehension of the
configured size. -/
theorem c1_generated_row_counts (s : Nat → Nat) (s3 : Nat → Nat → Nat) :
    (new_rows s).length = 999
    ∧ (runOps { committed := [], pending := [] } (step3Ops s3)).committed.length
        = 999000
    ∧ (records s).length = 999999
    ∧ (999000 : Nat) ≠ batch_size * nr_batches
    ∧ (999999 : Nat) ≠ nr_records :=
  ⟨new_rows_length s, step3_committed_length s3, records_length s,
    by norm_num [batch_size, nr_batches], by norm_num [nr_records]⟩

/-- Claim C2: the claim says the copy strategy issues exactly one commit at
completion, leaving the streamed rows committed.  The code disagrees: the
copy block of `batch_inserts.py` (lines 147-152) contains no
`conn.commit()` at all — its trace has zero commits — so when the
connection is closed the streamed rows are discarded and the committed
table is exactly what it was before the step. -/
theorem c2_copy_never_commits (s : Nat → Nat) (c : List Rec) :
    commitCount (step4Ops s) = 0
    ∧ closeConn (runOps { committed := c, pending := [] } (step4Ops s))
        = { committed := c, pending := [] } := by
  refine ⟨step4_commitCount s, ?_⟩
  have h : runOps { committed := c, pending := [] } (step4Ops s)
      = { committed := c, pending := records s } := by
    simpa [step4Ops] using runOps_copy_map c [] (records s)
  rw [h]
  rfl

/-- Claim C3: over the dataset generated by `indices.py` (row `i` has name
`Student<i>` and age `i mod 60`), the script's query
`SELECT * FROM students WHERE age = 20 AND name LIKE 'Student%'` returns
exactly as many rows as there are indices `i < n` with `i mod 60 = 20`,
and the count is unchanged by creating `age_index`. -/
theorem c3_age20_query_count (n : Nat) :
    (selectAge20 (initDb n)).length
      = ((List.range n).filter fun i => i % 60 == 20).length
    ∧ (selectAge20 (create_index (initDb n) ("age_index".toList))).length
        = (selectAge20 (initDb n)).length := by
  constructor
  · rw [selectAge20_initDb, List.length_map]
  · rfl

/-- Claim C4: `create_index` mutates only the schema: the rows are left
untouched, so every row-level query — any Boolean predicate filtered over
the table, and in particular the script's own `SELECT` — returns the same
result set before and after the index is created. -/
theorem c4_create_index_preserves_rows (db : SqliteDb) (idx : List Char)
    (q : Student → Bool) :
    (create_index db idx).students = db.students
    ∧ (create_index db idx).students.filter q = db.students.filter q
    ∧ selectAge20 (create_index db idx) = selectAge20 db :=
  ⟨rfl, rfl, rfl⟩

/-- Claim C5, counterexample: the claim says both demos drop and recreate
their schema each run, so a second run ends with the same row count as the
first.  For `batch_inserts.py` this is false: `CREATE TABLE IF NOT EXISTS
records` keeps the existing table and rows, so starting from an empty
table one run leaves 1,019,000 committed rows but a second run leaves
2,038,000 — the first run's rows leak into the second. -/
theorem c5_fresh_schema_counterexample :
    (closeConn (batchScriptRunState
        ((closeConn (batchScriptRunState [] (fun _ => 0) (fun _ => 0)
          (fun _ _ => 0) (fun _ => 0))).committed)
        (fun _ => 0) (fun _ => 0) (fun _ _ => 0) (fun _ => 0))).committed.length
      = 2038000
    ∧ (closeConn (batchScriptRunState [] (fun _ => 0) (fun _ => 0)
        (fun _ _ => 0) (fun _ => 0))).committed.length = 1019000
    ∧ (2038000 : Nat) ≠ 1019000 := by
  have h1 : (closeConn (batchScriptRunState [] (fun _ => 0) (fun _ => 0)
      (fun _ _ => 0) (fun _ => 0))).committed.length = 1019000 := by
    rw [batchScriptRun_length, List.length_nil]
  refine ⟨?_, h1, by norm_num⟩
  rw [batchScriptRun_length, h1]

/-- Claim C5, amended: `indices.py` deletes the database file at the start
of each run, so a run ends with exactly `nStudents` rows regardless of any
prior database — re-running it leaks nothing.  `batch_inserts.py`, in
contrast, only issues `CREATE TABLE IF NOT EXISTS`, so each run appends
its 1,019,000 committed rows to whatever the table already held. -/
theorem c5_fresh_schema_amended (prior : Option SqliteDb)
    (priorRows : List Rec) (s1 s2 s4 : Nat → Nat) (s3 : Nat → Nat → Nat) :
    (runIndicesScript prior).students.length = nStudents
    ∧ (runIndicesScript (some (runIndicesScript prior))).students.length
        = nStudents
    ∧ (closeConn (batchScriptRunState priorRows s1 s2 s3 s4)).committed.length
        = priorRows.length + 1019000 := by
  refine ⟨?_, ?_, batchScriptRun_length priorRows s1 s2 s3 s4⟩
  · rw [runIndicesScript, create_index_students, initDb_students,
      populateStudents_length]
  · rw [runIndicesScript, create_index_students, initDb_students,
      populateStudents_length]

/-- Claim C6, counterexample: the claim says the row generators of both
scripts are non-deterministic.  For `indices.py` this is false: its
population loop reads no pseudo-random source (name and age are functions
of the loop index alone), so no two random environments produce different
generated rows — the negation of the claim's existential for that
script. -/
theorem c6_determinism_counterexample :
    ¬ ∃ e1 e2 : Nat → Nat, indicesGeneratedRows e1 ≠ indicesGeneratedRows e2 := by
  rintro ⟨e1, e2, h⟩
  exact h rfl

/-- Claim C6, amended: only the Postgres demo's generation is
non-deterministic: `indices.py` generates the same rows under every random
environment, while `batch_inserts.py` does depend on the environment —
two environments differing in the draw used for the first record's `num`
yield different `records` lists. -/
theorem c6_determinism_amended :
    (∀ e1 e2 : Nat → Nat, indicesGeneratedRows e1 = indicesGeneratedRows e2)
    ∧ (∃ t1 t2 : Nat → Nat, records t1 ≠ records t2) := by
  refine ⟨fun e1 e2 => rfl, ⟨fun _ => 0, fun _ => 1, ?_⟩⟩
  intro h
  have h0 : 0 < (records (fun _ => 0)).length := by
    rw [records_length]
    norm_num
  have h1 : 0 < (records (fun _ => 1)).length := by
    rw [records_length]
    norm_num
  have e0 : ((records (fun _ => 0)).headD { num := 0, txt := [] }).num = 1 := by
    rw [headD_eq_get _ _ h0, records_num_at_zero _ h0]
    norm_num
  have e1 : ((records (fun _ => 1)).headD { num := 0, txt := [] }).num = 2 := by
    rw [headD_eq_get _ _ h1, records_num_at_zero _ h1]
    norm_num
  have hq := congrArg (fun l : List Rec => (l.headD { num := 0, txt := [] }).num) h
  simp only [] at hq
  rw [e0, e1] at hq
  exact absurd hq (by norm_num)

/-- Claim C7: neither script catches or retries failures.  Running either
script's trace of database calls under any fallible executor, if every
call before position `k` succeeds and the call at `k` raises an error,
the whole run returns exactly that error: no handler runs, no retry
happens, and the calls after `k` are never executed. -/
theorem c7_errors_propagate (exP : PgOp → Except Nat Unit)
    (exS : SqOp → Except Nat Unit) (s1 s2 s4 : Nat → Nat)
    (s3 : Nat → Nat → Nat) (kP kS eP eS : Nat)
    (hkP : kP < (batchScriptOps s1 s2 s3 s4).length)
    (hokP : ∀ j, (hj : j < (batchScriptOps s1 s2 s3 s4).length) → j < kP →
      exP ((batchScriptOps s1 s2 s3 s4).get ⟨j, hj⟩) = .ok ())
    (herrP : exP ((batchScriptOps s1 s2 s3 s4).get ⟨kP, hkP⟩) = .error eP)
    (hkS : kS < indicesScriptOps.length)
    (hokS : ∀ j, (hj : j < indicesScriptOps.length) → j < kS →
      exS (indicesScriptOps.get ⟨j, hj⟩) = .ok ())
    (herrS : exS (indicesScriptOps.get ⟨kS, hkS⟩) = .error eS) :
    runScriptE exP (batchScriptOps s1 s2 s3 s4) = .error eP
    ∧ runScriptE exS indicesScriptOps = .error eS :=
  ⟨runScriptE_error exP (batchScriptOps s1 s2 s3 s4) eP kP hkP hokP herrP,
    runScriptE_error exS indicesScriptOps eS kS hkS hokS herrS⟩

/-- Witness for C7: an executor that fails on every call with error 7
(resp. 9) makes the Postgres script's run (resp. the SQLite script's run)
return exactly that error. -/
theorem c7_errors_propagate_witness :
    runScriptE (fun _ => .error 7)
      (batchScriptOps (fun _ => 0) (fun _ => 0) (fun _ _ => 0) (fun _ => 0))
      = .error 7
    ∧ runScriptE (fun _ => .error 9) indicesScriptOps = .error 9 :=
  c7_errors_propagate (fun _ => .error 7) (fun _ => .error 9)
    (fun _ => 0) (fun _ => 0) (fun _ => 0) (fun _ _ => 0) 0 0 7 9
    (batchScriptOps_length_pos (fun _ => 0) (fun _ => 0) (fun _ _ => 0)
      (fun _ => 0))
    (fun j _ hlt => absurd hlt (Nat.not_lt_zero j))
    rfl
    (by rw [indicesScriptOps_length]; omega)
    (fun j _ hlt => absurd hlt (Nat.not_lt_zero j))
    rfl

/-- Claim C8: the final print of `batch_inserts.py` reports
`batch * batch_size` with `batch` at its final loop value 999, i.e.
999,000 — and that value equals exactly the number of rows the batched
loop actually inserted, `nr_batches * (batch_size - 1) = 999,000`.  The
coincidence is precise: for positive counts, `(nb - 1) * bs = nb * (bs - 1)`
holds exactly when `nb = bs` — and here `nr_batches = batch_size = 1000`.
Meanwhile the literal `1'000'000 records` in the same message exceeds both
by 1,000. -/
theorem c8_final_print_count (s3 : Nat → Nat → Nat) :
    printedInsertCount = 999000
    ∧ (runOps { committed := [], pending := [] } (step3Ops s3)).committed.length
        = printedInsertCount
    ∧ (1000000 : Nat) = printedInsertCount + 1000
    ∧ (∀ nb bs : Nat,
        ((nb + 1 - 1) * (bs + 1) = (nb + 1) * (bs + 1 - 1)) ↔ nb + 1 = bs + 1) := by
  have hp : printedInsertCount = 999000 := by
    norm_num [printedInsertCount, finalBatchValue, nr_batches, batch_size]
  refine ⟨hp, ?_, ?_, ?_⟩
  · rw [step3_committed_length, hp]
  · rw [hp]
  · intro nb bs
    have ha : nb + 1 - 1 = nb := by omega
    have hb : bs + 1 - 1 = bs := by omega
    rw [ha, hb, Nat.mul_succ, Nat.succ_mul]
    constructor
    · intro he
      omega
    · intro he
      omega

/-- Claim C9: every `num` value generated for the Postgres demo — in any
of the four row lists the script builds — comes from
`random.randint(1, 10**17)` and so lies in the inclusive range
`[1, 10^17]`; and `10^17 < 2^63 - 1`, so every such value is representable
as a signed 64-bit `BIGINT`. -/
theorem c9_num_fits_bigint (s : Nat → Nat) (r : Rec)
    (h : r ∈ records s ∨ r ∈ new_rows s ∨ r ∈ step1Rows s ∨ r ∈ step2Rows s) :
    1 ≤ r.num ∧ r.num ≤ 10 ^ 17 ∧ (10 : Nat) ^ 17 < 2 ^ 63 - 1 := by
  have hr : ∃ i, genRecord s i = r := by
    rcases h with h | h | h | h
    · rw [records] at h
      rcases List.mem_map.mp h with ⟨i, _, he⟩
      exact ⟨i, he⟩
    · rw [new_rows] at h
      rcases List.mem_map.mp h with ⟨i, _, he⟩
      exact ⟨i, he⟩
    · rw [step1Rows] at h
      rcases List.mem_map.mp h with ⟨i, _, he⟩
      exact ⟨i, he⟩
    · rw [step2Rows] at h
      rcases List.mem_map.mp h with ⟨i, _, he⟩
      exact ⟨i, he⟩
  rcases hr with ⟨i, hi⟩
  have hb := genRecord_num_bounds s i
  rw [hi] at hb
  exact ⟨hb.1, hb.2, by norm_num⟩

/-- Witness for C9: the first record of the copy step's list under the
all-zero environment has `num = 1`, which indeed lies in `[1, 10^17]`. -/
theorem c9_num_fits_bigint_witness :
    genRecord (fun _ => 0) 1 ∈ records (fun _ => 0)
    ∧ (1 ≤ (genRecord (fun _ => 0) 1).num
        ∧ (genRecord (fun _ => 0) 1).num ≤ 10 ^ 17
        ∧ (10 : Nat) ^ 17 < 2 ^ 63 - 1) := by
  have hmem : genRecord (fun _ => 0) 1 ∈ records (fun _ => 0) := by
    rw [records]
    refine List.mem_map.mpr ⟨1, ?_, rfl⟩
    rw [pyRange, List.mem_range'_1]
    norm_num [nr_records]
  exact ⟨hmem,
    c9_num_fits_bigint (fun _ => 0) (genRecord (fun _ => 0) 1) (Or.inl hmem)⟩

end RdbLab
